import Mathlib

/-!
Shallow embedding of the to-do list manager in
src/Project/project_programming_2_completed.py.

Modelling conventions:
* The Python class hierarchy Task / PriorityTask / RecurringTask /
  SimpleTask / AdvancedTask is embedded as a single structure with a
  variant tag carrying exactly the extra fields of each subclass.
* Console output is captured as a list of emitted lines; methods that
  print return those lines alongside their result.
* Mutation is embedded as state passing: a method that mutates an object
  returns the updated value; methods that mutate nothing return their
  state unchanged.
* The construction timestamp datetime.now() is an opaque clock value
  supplied by the caller, modelled as a natural number.
-/

namespace Todo

/-- Variant tag distinguishing the Task subclasses, carrying only the
extra fields a subclass adds (recurrence for RecurringTask, extra_notes
for AdvancedTask). -/
inductive TaskKind where
  | base
  | priorityTask
  | recurring (recurrence : String)
  | simple
  | advanced (extra_notes : String)
deriving DecidableEq, Repr

/-- The Task record: title, completed flag, priority label, creation
timestamp, and the variant tag. -/
structure Task where
  title : String
  completed : Bool
  priority : String
  created_at : Nat
  kind : TaskKind
deriving DecidableEq, Repr

/-- Embeds Task.update_status: sets the completed flag, nothing else. -/
def Task.update_status (t : Task) (status : Bool) : Task :=
  { t with completed := status }

/-- Embeds the dynamic dispatch of str(task): the base Task rendering,
with RecurringTask and AdvancedTask appending their suffix to the result
of the base rendering (super call), and PriorityTask and SimpleTask
inheriting the base rendering unchanged. -/
def Task.str (t : Task) : String :=
  let status := if t.completed then "Completed" else "Pending"
  let base := "Task: " ++ t.title ++ ", Priority: " ++ t.priority ++ ", Status: " ++ status
  match t.kind with
  | TaskKind.recurring r => base ++ ", Recurrence: " ++ r
  | TaskKind.advanced n => base ++ ", Notes: " ++ n
  | _ => base

/-- Embeds Task.__init__(title, priority): completed starts false, the
timestamp is the clock value at construction. -/
def Task.init (now : Nat) (title : String) (priority : String) : Task :=
  { title := title, completed := false, priority := priority
    created_at := now, kind := TaskKind.base }

/-- Calling Task(title) without a priority argument: the Python default
parameter priority="Medium" is applied. -/
def Task.initDefault (now : Nat) (title : String) : Task :=
  Task.init now title "Medium"

/-- Embeds PriorityTask.__init__(title, priority): forwards both
arguments to the base constructor. -/
def PriorityTask.init (now : Nat) (title : String) (priority : String) : Task :=
  { Task.init now title priority with kind := TaskKind.priorityTask }

/-- Calling PriorityTask(title) without a priority argument: the default
parameter priority="High" is applied. -/
def PriorityTask.initDefault (now : Nat) (title : String) : Task :=
  PriorityTask.init now title "High"

/-- Embeds RecurringTask.__init__(title, recurrence): calls the base
constructor with the title only, so the base default priority applies;
then stores the recurrence. -/
def RecurringTask.init (now : Nat) (title : String) (recurrence : String) : Task :=
  { Task.initDefault now title with kind := TaskKind.recurring recurrence }

/-- Embeds SimpleTask, which overrides nothing: construction is exactly
the base construction, tagged as the SimpleTask variant. -/
def SimpleTask.init (now : Nat) (title : String) (priority : String) : Task :=
  { Task.init now title priority with kind := TaskKind.simple }

/-- Calling SimpleTask(title) without a priority argument: the inherited
default parameter priority="Medium" is applied. -/
def SimpleTask.initDefault (now : Nat) (title : String) : Task :=
  SimpleTask.init now title "Medium"

/-- Embeds AdvancedTask.__init__(title, priority, extra_notes). -/
def AdvancedTask.init (now : Nat) (title : String) (priority : String)
    (extra_notes : String) : Task :=
  { Task.init now title priority with kind := TaskKind.advanced extra_notes }

/-- Calling AdvancedTask(title) with neither priority nor notes: the
default parameters priority="Low" and extra_notes="" are applied. -/
def AdvancedTask.initDefault (now : Nat) (title : String) : Task :=
  AdvancedTask.init now title "Low" ""

/-- The two ReminderInterface implementations, EmailReminder and
SMSReminder; each carries no state, so a channel is just the choice of
medium. -/
inductive ReminderChannel where
  | email
  | sms
deriving DecidableEq, Repr

/-- Embeds EmailReminder.set_reminder and SMSReminder.set_reminder: each
prints a single line naming the medium, the task title and the reminder
text; the returned string is that printed line. -/
def ReminderChannel.set_reminder (c : ReminderChannel) (task : Task)
    (reminder_text : String) : String :=
  match c with
  | ReminderChannel.email =>
      "Email reminder for task \x27" ++ task.title ++ "\x27: " ++ reminder_text
  | ReminderChannel.sms =>
      "SMS reminder for task \x27" ++ task.title ++ "\x27: " ++ reminder_text

/-- Embeds ReminderManager: holds exactly the injected channel. -/
structure ReminderManager where
  reminder_service : ReminderChannel
deriving DecidableEq, Repr

/-- Embeds ReminderManager.send_reminder: forwards the task and text to
the bound channel; the result is the line the channel prints. -/
def ReminderManager.send_reminder (m : ReminderManager) (task : Task)
    (reminder_text : String) : String :=
  m.reminder_service.set_reminder task reminder_text

/-- State-passing form of ReminderManager.send_reminder. The Python
method body only reads self.reminder_service and the arguments and
prints one line, so the translated post-state returns the manager and
the task unchanged together with the printed output. -/
def ReminderManager.send_reminder_step (m : ReminderManager) (task : Task)
    (reminder_text : String) : ReminderManager × Task × List String :=
  (m, task, [m.send_reminder task reminder_text])

/-- Embeds ToDoApp: its only state is the ordered task list. -/
structure ToDoApp where
  tasks : List Task
deriving DecidableEq, Repr

/-- Embeds ToDoApp.__init__: the task list starts empty. -/
def ToDoApp.init : ToDoApp :=
  { tasks := [] }

/-- Embeds ToDoApp.add_task: appends the task to the end of the list and
prints the added line echoing str(task). -/
def ToDoApp.add_task (app : ToDoApp) (task : Task) : ToDoApp × List String :=
  ({ tasks := app.tasks ++ [task] }, ["Task added: " ++ task.str])

/-- Embeds ToDoApp.display_tasks: on an empty list prints the single no
tasks line and returns; otherwise prints a header then str(task) for
every task in list order. The list is only read, so the state component
is returned unchanged. -/
def ToDoApp.display_tasks (app : ToDoApp) : ToDoApp × List String :=
  if app.tasks.isEmpty then (app, ["No tasks available."])
  else (app, "Tasks List:" :: app.tasks.map Task.str)

/-- Embeds the for loop of ToDoApp.find_task: scans the list front to
back and returns the first task whose title equals the argument. -/
def findFirst (tasks : List Task) (title : String) : Option Task :=
  match tasks with
  | [] => none
  | t :: ts => if t.title = title then some t else findFirst ts title

/-- Embeds ToDoApp.find_task: on a hit, returns the task and prints
nothing; on a miss, prints the not found line and returns None. The list
is only read, so the state component is returned unchanged. -/
def ToDoApp.find_task (app : ToDoApp) (title : String) :
    ToDoApp × Option Task × List String :=
  match findFirst app.tasks title with
  | some t => (app, some t, [])
  | none => (app, none, ["Task \x27" ++ title ++ "\x27 not found."])

/-- In-place write through the alias that the Python find_task returns:
the first task in the list whose title matches has its completed flag
set; every other list entry is untouched. -/
def updateFirst (tasks : List Task) (title : String) (status : Bool) : List Task :=
  match tasks with
  | [] => []
  | t :: ts =>
      if t.title = title then t.update_status status :: ts
      else t :: updateFirst ts title status

/-- Embeds ToDoApp.update_task_status: looks up via find_task; if a task
was returned, mutates its completed flag through the alias (updateFirst
on the list) and prints the updated line; otherwise only the not found
line from the lookup is emitted and the list is left as it was. -/
def ToDoApp.update_task_status (app : ToDoApp) (title : String) (status : Bool) :
    ToDoApp × List String :=
  match app.find_task title with
  | (_, some _, out) =>
      ({ tasks := updateFirst app.tasks title status },
        out ++ ["Task \x27" ++ title ++ "\x27 status updated to: " ++
          (if status then "Completed" else "Pending")])
  | (_, none, out) => (app, out)

/-- A sequence of add_task calls, collecting the emitted lines in call
order. -/
def ToDoApp.add_all (app : ToDoApp) (ts : List Task) : ToDoApp × List String :=
  match ts with
  | [] => (app, [])
  | t :: rest =>
      let step := app.add_task t
      let tail := step.1.add_all rest
      (tail.1, step.2 ++ tail.2)

/-- Helper: when some stored task has the requested title, the scan of
the list splits it around the first match, and the in-place update
rewrites exactly that entry. -/
theorem scan_present (tasks : List Task) (title : String) (status : Bool)
    (h : ∃ t ∈ tasks, t.title = title) :
    ∃ pre t post, tasks = pre ++ t :: post ∧ (∀ u ∈ pre, u.title ≠ title) ∧
      t.title = title ∧ findFirst tasks title = some t ∧
      updateFirst tasks title status = pre ++ t.update_status status :: post := by
  induction tasks with
  | nil => simp at h
  | cons a ts ih =>
    by_cases ha : a.title = title
    · exact ⟨[], a, ts, rfl, by simp, ha, by simp [findFirst, ha],
        by simp [updateFirst, ha]⟩
    · obtain ⟨t, ht, htt⟩ := h
      rcases List.mem_cons.mp ht with rfl | hmem
      · exact absurd htt ha
      · obtain ⟨pre, u, post, heq, hpre, hu, hfind, hupd⟩ := ih ⟨t, hmem, htt⟩
        refine ⟨a :: pre, u, post, by simp [heq], ?_, hu,
          by simp [findFirst, ha, hfind], by simp [updateFirst, ha, hupd]⟩
        intro v hv
        rcases List.mem_cons.mp hv with rfl | hv
        · exact ha
        · exact hpre v hv

/-- Helper: when no stored task has the requested title, the scan fails
and the in-place update touches nothing. -/
theorem scan_absent (tasks : List Task) (title : String) (status : Bool)
    (h : ∀ t ∈ tasks, t.title ≠ title) :
    findFirst tasks title = none ∧ updateFirst tasks title status = tasks := by
  induction tasks with
  | nil => simp [findFirst, updateFirst]
  | cons a ts ih =>
    have ha : a.title ≠ title := h a (List.mem_cons_self a ts)
    have hts := ih fun t ht => h t (List.mem_cons_of_mem a ht)
    simp [findFirst, updateFirst, ha, hts]

/-- Claim C2: find_task returns the first task in insertion order whose
title exactly equals the argument, printing nothing; if no stored task
matches (in particular on an empty list) it prints the not found line,
returns no task, and the list is unchanged. -/
theorem find_task_first_match (app : ToDoApp) (title : String) :
    (app.find_task title).1 = app ∧
    ((∃ t ∈ app.tasks, t.title = title) →
      ∃ pre t post, app.tasks = pre ++ t :: post ∧ (∀ u ∈ pre, u.title ≠ title) ∧
        t.title = title ∧ app.find_task title = (app, some t, [])) ∧
    ((∀ t ∈ app.tasks, t.title ≠ title) →
      app.find_task title = (app, none, ["Task \x27" ++ title ++ "\x27 not found."])) := by
  refine ⟨?_, ?_, ?_⟩
  · cases h : findFirst app.tasks title <;> simp [ToDoApp.find_task, h]
  · intro h
    obtain ⟨pre, t, post, heq, hpre, ht, hfind, -⟩ := scan_present app.tasks title true h
    exact ⟨pre, t, post, heq, hpre, ht, by simp [ToDoApp.find_task, hfind]⟩
  · intro h
    obtain ⟨hfind, -⟩ := scan_absent app.tasks title true h
    simp [ToDoApp.find_task, hfind]

/-- Witness for claim C2 at concrete inputs: a two-task list hit on the
second title, and a miss on an empty list. -/
theorem find_task_first_match_witness :
    (∃ pre t post,
      ({ tasks := [Task.initDefault 0 "A", Task.initDefault 1 "B"] } : ToDoApp).tasks =
        pre ++ t :: post ∧ (∀ u ∈ pre, u.title ≠ "B") ∧ t.title = "B" ∧
      ToDoApp.find_task { tasks := [Task.initDefault 0 "A", Task.initDefault 1 "B"] } "B" =
        ({ tasks := [Task.initDefault 0 "A", Task.initDefault 1 "B"] }, some t, [])) ∧
    ToDoApp.find_task { tasks := [] } "C" =
      ({ tasks := [] }, none, ["Task \x27C\x27 not found."]) :=
  ⟨(find_task_first_match { tasks := [Task.initDefault 0 "A", Task.initDefault 1 "B"] } "B").2.1
      ⟨Task.initDefault 1 "B", by simp, rfl⟩,
    (find_task_first_match { tasks := [] } "C").2.2 (by simp)⟩

/-- Claim C1: update_task_status on a present title rewrites exactly the
first stored task whose title matches, setting only its completed flag
and printing the updated line; every earlier and later task is returned
unchanged. On an absent title the state is returned unchanged and only
the not found line from the lookup is printed. -/
theorem update_task_status_frame (app : ToDoApp) (title : String) (status : Bool) :
    ((∃ t ∈ app.tasks, t.title = title) →
      ∃ pre t post, app.tasks = pre ++ t :: post ∧ (∀ u ∈ pre, u.title ≠ title) ∧
        t.title = title ∧
        app.update_task_status title status =
          ({ tasks := pre ++ { t with completed := status } :: post },
            ["Task \x27" ++ title ++ "\x27 status updated to: " ++
              (if status then "Completed" else "Pending")])) ∧
    ((∀ t ∈ app.tasks, t.title ≠ title) →
      app.update_task_status title status =
        (app, ["Task \x27" ++ title ++ "\x27 not found."])) := by
  constructor
  · intro h
    obtain ⟨pre, t, post, heq, hpre, ht, hfind, hupd⟩ := scan_present app.tasks title status h
    exact ⟨pre, t, post, heq, hpre, ht, by
      simp [ToDoApp.update_task_status, ToDoApp.find_task, hfind, hupd, Task.update_status]⟩
  · intro h
    obtain ⟨hfind, -⟩ := scan_absent app.tasks title status h
    simp [ToDoApp.update_task_status, ToDoApp.find_task, hfind]

/-- Witness for claim C1 at concrete inputs: completing the second of
two stored tasks, and an update on a missing title. -/
theorem update_task_status_frame_witness :
    (∃ pre t post,
      ({ tasks := [Task.initDefault 0 "A", Task.initDefault 1 "B"] } : ToDoApp).tasks =
        pre ++ t :: post ∧ (∀ u ∈ pre, u.title ≠ "B") ∧ t.title = "B" ∧
      ToDoApp.update_task_status
          { tasks := [Task.initDefault 0 "A", Task.initDefault 1 "B"] } "B" true =
        ({ tasks := pre ++ { t with completed := true } :: post },
          ["Task \x27B\x27 status updated to: " ++ (if true then "Completed" else "Pending")])) ∧
    ToDoApp.update_task_status { tasks := [Task.initDefault 0 "A"] } "C" false =
      ({ tasks := [Task.initDefault 0 "A"] }, ["Task \x27C\x27 not found."]) :=
  ⟨(update_task_status_frame
        { tasks := [Task.initDefault 0 "A", Task.initDefault 1 "B"] } "B" true).1
      ⟨Task.initDefault 1 "B", by simp, rfl⟩,
    (update_task_status_frame { tasks := [Task.initDefault 0 "A"] } "C" false).2 (by decide)⟩

/-- Claim C3: rendering produces the base line listing title, priority
and the status word matching the completed flag; the RecurringTask and
AdvancedTask variants append their suffix to the base rendering of the
same task rather than replacing it. -/
theorem task_str_format (t : Task) :
    ((t.kind = TaskKind.base ∨ t.kind = TaskKind.priorityTask ∨ t.kind = TaskKind.simple) →
      t.str = "Task: " ++ t.title ++ ", Priority: " ++ t.priority ++ ", Status: " ++
        (if t.completed then "Completed" else "Pending")) ∧
    (∀ r, t.kind = TaskKind.recurring r →
      t.str = ({ t with kind := TaskKind.base } : Task).str ++ ", Recurrence: " ++ r) ∧
    (∀ n, t.kind = TaskKind.advanced n →
      t.str = ({ t with kind := TaskKind.base } : Task).str ++ ", Notes: " ++ n) := by
  obtain ⟨title, completed, priority, created_at, kind⟩ := t
  refine ⟨?_, ?_, ?_⟩
  · rintro (h | h | h) <;> simp only at h <;> subst h <;> rfl
  · rintro r h
    simp only at h
    subst h
    rfl
  · rintro n h
    simp only at h
    subst h
    rfl

/-- Witness for claim C3 at concrete tasks: one of each shape of the
rendering hypothesis. -/
theorem task_str_format_witness :
    (Task.initDefault 0 "Buy groceries").str =
      "Task: " ++ (Task.initDefault 0 "Buy groceries").title ++ ", Priority: " ++
        (Task.initDefault 0 "Buy groceries").priority ++ ", Status: " ++
        (if (Task.initDefault 0 "Buy groceries").completed then "Completed" else "Pending") ∧
    (RecurringTask.init 0 "Workout" "Daily").str =
      ({ RecurringTask.init 0 "Workout" "Daily" with kind := TaskKind.base } : Task).str ++
        ", Recurrence: " ++ "Daily" ∧
    (AdvancedTask.init 0 "Plan vacation" "Medium" "Include family preferences.").str =
      ({ AdvancedTask.init 0 "Plan vacation" "Medium" "Include family preferences." with
          kind := TaskKind.base } : Task).str ++
        ", Notes: " ++ "Include family preferences." :=
  ⟨(task_str_format (Task.initDefault 0 "Buy groceries")).1 (Or.inl rfl),
    (task_str_format (RecurringTask.init 0 "Workout" "Daily")).2.1 "Daily" rfl,
    (task_str_format
        (AdvancedTask.init 0 "Plan vacation" "Medium" "Include family preferences.")).2.2
      "Include family preferences." rfl⟩

/-- Helper: a run of add_task calls appends the given tasks in order and
prints one added line per task in call order. -/
theorem add_all_spec (ts : List Task) : ∀ app : ToDoApp,
    (app.add_all ts).1.tasks = app.tasks ++ ts ∧
    (app.add_all ts).2 = ts.map (fun t => "Task added: " ++ t.str) := by
  induction ts with
  | nil => intro app; simp [ToDoApp.add_all]
  | cons t rest ih =>
    intro app
    obtain ⟨h1, h2⟩ := ih (app.add_task t).1
    refine ⟨?_, ?_⟩
    · calc (app.add_all (t :: rest)).1.tasks
          = ((app.add_task t).1.add_all rest).1.tasks := rfl
        _ = (app.add_task t).1.tasks ++ rest := h1
        _ = (app.tasks ++ [t]) ++ rest := rfl
        _ = app.tasks ++ t :: rest := by simp
    · calc (app.add_all (t :: rest)).2
          = (app.add_task t).2 ++ ((app.add_task t).1.add_all rest).2 := rfl
        _ = ["Task added: " ++ t.str] ++ List.map (fun u => "Task added: " ++ u.str) rest := by
              rw [h2]
              rfl
        _ = List.map (fun u => "Task added: " ++ u.str) (t :: rest) := by simp

/-- Claim C4: adding N tasks to a fresh manager stores exactly those
tasks in call order, each add printing its added line echoing the
rendered task; a subsequent display prints the header and then one entry
per task in the order added, while an empty manager displays the single
no tasks line; display never changes the state. -/
theorem add_then_display (ts : List Task) :
    (ToDoApp.init.add_all ts).1.tasks = ts ∧
    (ToDoApp.init.add_all ts).2 = ts.map (fun t => "Task added: " ++ t.str) ∧
    (ts ≠ [] →
      ((ToDoApp.init.add_all ts).1.display_tasks).2 = "Tasks List:" :: ts.map Task.str) ∧
    ToDoApp.init.display_tasks = (ToDoApp.init, ["No tasks available."]) ∧
    ((ToDoApp.init.add_all ts).1.display_tasks).1 = (ToDoApp.init.add_all ts).1 := by
  obtain ⟨h1, h2⟩ := add_all_spec ts ToDoApp.init
  have h1' : (ToDoApp.init.add_all ts).1.tasks = ts := by simpa [ToDoApp.init] using h1
  refine ⟨h1', h2, ?_, rfl, ?_⟩
  · intro hne
    cases hts : ts with
    | nil => exact absurd hts hne
    | cons a rest =>
      rw [hts] at h1'
      simp [ToDoApp.display_tasks, h1', hts]
  · cases h : (ToDoApp.init.add_all ts).1.tasks.isEmpty <;>
      simp [ToDoApp.display_tasks, h]

/-- Witness for claim C4 at a concrete one-task run. -/
theorem add_then_display_witness :
    ((ToDoApp.init.add_all [Task.initDefault 0 "Buy groceries"]).1.display_tasks).2 =
      "Tasks List:" :: [Task.initDefault 0 "Buy groceries"].map Task.str :=
  (add_then_display [Task.initDefault 0 "Buy groceries"]).2.2.1 (by simp)

/-- Claim C5: after update_status true the rendering shows the text
Status: Completed, after update_status false it shows Status: Pending,
for every variant; and repeating update_status with the same flag leaves
the task exactly as one call does. -/
theorem update_status_render_idem (t : Task) (b : Bool) :
    (∃ pre post, (t.update_status true).str = pre ++ "Status: Completed" ++ post) ∧
    (∃ pre post, (t.update_status false).str = pre ++ "Status: Pending" ++ post) ∧
    (t.update_status b).update_status b = t.update_status b := by
  obtain ⟨title, completed, priority, created_at, kind⟩ := t
  refine ⟨?_, ?_, rfl⟩
  · cases kind with
    | recurring r =>
        exact ⟨"Task: " ++ title ++ ", Priority: " ++ priority ++ ", ", ", Recurrence: " ++ r,
          by simp only [Task.update_status, Task.str, String.append_assoc]; rfl⟩
    | advanced n =>
        exact ⟨"Task: " ++ title ++ ", Priority: " ++ priority ++ ", ", ", Notes: " ++ n,
          by simp only [Task.update_status, Task.str, String.append_assoc]; rfl⟩
    | base =>
        exact ⟨"Task: " ++ title ++ ", Priority: " ++ priority ++ ", ", "",
          by simp only [Task.update_status, Task.str, String.append_assoc, String.append_empty]; rfl⟩
    | priorityTask =>
        exact ⟨"Task: " ++ title ++ ", Priority: " ++ priority ++ ", ", "",
          by simp only [Task.update_status, Task.str, String.append_assoc, String.append_empty]; rfl⟩
    | simple =>
        exact ⟨"Task: " ++ title ++ ", Priority: " ++ priority ++ ", ", "",
          by simp only [Task.update_status, Task.str, String.append_assoc, String.append_empty]; rfl⟩
  · cases kind with
    | recurring r =>
        exact ⟨"Task: " ++ title ++ ", Priority: " ++ priority ++ ", ", ", Recurrence: " ++ r,
          by simp only [Task.update_status, Task.str, String.append_assoc]; rfl⟩
    | advanced n =>
        exact ⟨"Task: " ++ title ++ ", Priority: " ++ priority ++ ", ", ", Notes: " ++ n,
          by simp only [Task.update_status, Task.str, String.append_assoc]; rfl⟩
    | base =>
        exact ⟨"Task: " ++ title ++ ", Priority: " ++ priority ++ ", ", "",
          by simp only [Task.update_status, Task.str, String.append_assoc, String.append_empty]; rfl⟩
    | priorityTask =>
        exact ⟨"Task: " ++ title ++ ", Priority: " ++ priority ++ ", ", "",
          by simp only [Task.update_status, Task.str, String.append_assoc, String.append_empty]; rfl⟩
    | simple =>
        exact ⟨"Task: " ++ title ++ ", Priority: " ++ priority ++ ", ", "",
          by simp only [Task.update_status, Task.str, String.append_assoc, String.append_empty]; rfl⟩

/-- Claim C6: a manager bound to the SMS channel and a manager bound to
the email channel produce notifications that share, verbatim, everything
after the medium label, including the task title and the message text;
and send_reminder delegates verbatim to the bound channel. -/
theorem reminder_channel_swap (t : Task) (txt : String) :
    ({ reminder_service := ReminderChannel.email } : ReminderManager).send_reminder t txt =
      "Email" ++ (" reminder for task \x27" ++ t.title ++ "\x27: " ++ txt) ∧
    ({ reminder_service := ReminderChannel.sms } : ReminderManager).send_reminder t txt =
      "SMS" ++ (" reminder for task \x27" ++ t.title ++ "\x27: " ++ txt) ∧
    ∀ m : ReminderManager, m.send_reminder t txt = m.reminder_service.set_reminder t txt := by
  refine ⟨?_, ?_, fun m => rfl⟩
  · simp only [ReminderManager.send_reminder, ReminderChannel.set_reminder,
      String.append_assoc]
    rfl
  · simp only [ReminderManager.send_reminder, ReminderChannel.set_reminder,
      String.append_assoc]
    rfl

/-- Claim C7: a Task built without an explicit priority gets "Medium", a
PriorityTask gets "High", and an AdvancedTask gets "Low". -/
theorem default_priority_values (now : Nat) (title : String) :
    (Task.initDefault now title).priority = "Medium" ∧
    (PriorityTask.initDefault now title).priority = "High" ∧
    (AdvancedTask.initDefault now title).priority = "Low" :=
  ⟨rfl, rfl, rfl⟩

/-- Counterexample for claim C8: the constructor stores whatever title
it is given without validation, so constructing a Task with the empty
string as title yields a task whose title is empty. -/
theorem task_title_nonempty_refuted :
    ¬ (∀ (now : Nat) (title priority : String),
        (Task.init now title priority).title ≠ "") :=
  fun h => h 0 "" "Medium" rfl

/-- Claim C8 as amended: every constructor stores the supplied title
verbatim, so the title is non-empty exactly when the caller supplies a
non-empty string; no constructor enforces non-emptiness. -/
theorem task_title_stored_verbatim (now : Nat) (title priority rec notes : String) :
    (Task.init now title priority).title = title ∧
    (PriorityTask.init now title priority).title = title ∧
    (RecurringTask.init now title rec).title = title ∧
    (SimpleTask.init now title priority).title = title ∧
    (AdvancedTask.init now title priority notes).title = title :=
  ⟨rfl, rfl, rfl, rfl, rfl⟩

/-- Claim C9: the RecurringTask constructor passes no priority to the
base constructor, so every RecurringTask has the base default priority
"Medium" regardless of its title and recurrence. -/
theorem recurring_task_priority_medium (now : Nat) (title recurrence : String) :
    (RecurringTask.init now title recurrence).priority = "Medium" :=
  rfl

/-- Claim C10: sending a reminder leaves the manager (hence its bound
channel) and the task (hence every one of its fields) unchanged; its
only effect is the single emitted notification line. -/
theorem send_reminder_frame (m : ReminderManager) (t : Task) (txt : String) :
    (m.send_reminder_step t txt).1 = m ∧
    (m.send_reminder_step t txt).2.1 = t ∧
    (m.send_reminder_step t txt).2.2 = [m.reminder_service.set_reminder t txt] :=
  ⟨rfl, rfl, rfl⟩

end Todo
